import Mathlib

/-!
Shallow embedding of the streampager builder facade (src/lib.rs).

The repository source under src/ contains only lib.rs: the public builder
API of the pager (the `Pager` struct, its constructors, the source-adding
methods, the configuration setters and `run`).  The submodules it calls
into (file.rs, config.rs, event.rs, progress.rs, display.rs) are not under
src/, so the values they produce are modelled from the spec, faithful to
its data model (section 3) and external-interface description (section 6).
Everything in lib.rs itself — control flow, field updates, the error-file
mapping discipline — is translated directly from the source.
-/

/-- Modelled from the spec: config.rs is not under src/.  The spec names
`interface_mode` as the option selecting whether the interactive core runs
at all, versus a direct passthrough bypassing it entirely.  It is modelled
as a closed variant with those two behaviours. -/
inductive InterfaceMode where
  | fullScreen
  | direct
deriving DecidableEq, Repr

/-- Modelled from the spec: config.rs is not under src/.  The recognized
configuration options are `interface_mode`, `scroll_past_eof` (bool) and
`read_ahead_lines` (integer). -/
structure Config where
  interface_mode : InterfaceMode
  scroll_past_eof : Bool
  read_ahead_lines : Nat
deriving DecidableEq, Repr

/-- Terminal capabilities, as consulted by `termcaps` in lib.rs: the only
field lib.rs inspects is `terminfo_db()`, which is `None` when no terminfo
database was found. -/
structure Capabilities where
  terminfo_db : Option String
deriving DecidableEq, Repr

/-- A system terminal handle, opaque to lib.rs; modelled as an abstract
numeric handle. -/
abbrev SystemTerminal := Nat

/-- Modelled from the spec: event.rs is not under src/.  The event stream
is a single ordered queue; lib.rs creates it from the terminal waker and
obtains sender handles from it for each source.  Modelled as a structure
holding the waker; a sender is a handle onto the same queue. -/
structure EventStream where
  waker : Nat
deriving DecidableEq, Repr

/-- Create the event stream from the terminal waker (EventStream::new). -/
def EventStream.new (waker : Nat) : EventStream := { waker := waker }

/-- Obtain a sender handle for the event stream (EventStream::sender). -/
def EventStream.sender (e : EventStream) : Nat := e.waker

/-- Modelled from the spec: file.rs is not under src/.  A Source is a
closed tagged variant over disk files, live streams and subprocess
output/error streams (spec section 3). -/
inductive FileKind where
  | streamed (stream : Nat)
  | disk (filename : String)
  | commandOut (command : String) (args : List String)
  | commandErr (command : String) (args : List String)
deriving DecidableEq, Repr

/-- Modelled from the spec: file.rs is not under src/.  A File pairs a
Source with a stable integer id and a human title (spec section 3), plus
the event sender handle lib.rs passes to every File constructor. -/
structure File where
  index : Nat
  title : String
  kind : FileKind
  event_sender : Nat
deriving DecidableEq, Repr

/-- Modelled from the spec: File::new_streamed lives in file.rs, not under
src/.  It creates a streamed File carrying the id, title and event sender
given by lib.rs; the spec describes no failure mode for attaching a live
stream, so in the model it always succeeds. -/
def File.new_streamed (index : Nat) (stream : Nat) (title : String)
    (event_sender : Nat) : Except String File :=
  Except.ok { index := index, title := title, kind := FileKind.streamed stream,
              event_sender := event_sender }

/-- Modelled from the spec: File::new_file lives in file.rs, not under
src/.  It creates a disk File with the id given by lib.rs; the title is
derived from the file name. -/
def File.new_file (index : Nat) (filename : String)
    (event_sender : Nat) : Except String File :=
  Except.ok { index := index, title := filename, kind := FileKind.disk filename,
              event_sender := event_sender }

/-- Modelled from the spec: File::new_command lives in file.rs, not under
src/.  The spec describes a subprocess attached as a linked output/error
pair of files; lib.rs passes one base id and pushes the output file then
the error file, so the pair carries consecutive ids index and index + 1. -/
def File.new_command (index : Nat) (command : String) (args : List String)
    (title : String) (event_sender : Nat) : Except String (File × File) :=
  Except.ok
    ({ index := index, title := title, kind := FileKind.commandOut command args,
       event_sender := event_sender },
     { index := index + 1, title := title, kind := FileKind.commandErr command args,
       event_sender := event_sender })

/-- Whether a File carries an output source rather than an error source. -/
def FileKind.is_output : FileKind → Bool
  | FileKind.streamed _ => true
  | FileKind.disk _ => true
  | FileKind.commandOut _ _ => true
  | FileKind.commandErr _ _ => false

/-- Modelled from the spec: progress.rs is not under src/.  The optional
progress source is a byte stream with an event sender handle. -/
structure Progress where
  stream : Nat
  event_sender : Nat
deriving DecidableEq, Repr

/-- Create a progress source (Progress::new). -/
def Progress.new (stream : Nat) (event_sender : Nat) : Progress :=
  { stream := stream, event_sender := event_sender }

/-- The error-file mapping: a VecMap from file indices to the associated
error files.  Modelled as an association list where insert replaces any
existing entry for the key, matching VecMap::insert semantics. -/
abbrev ErrorMap := List (Nat × File)

/-- VecMap::insert — set the value at a key, replacing any prior entry. -/
def ErrorMap.insert (m : ErrorMap) (k : Nat) (v : File) : ErrorMap :=
  (k, v) :: m.filter (fun kv => kv.fst ≠ k)

/-- VecMap lookup — the value at a key, if present. -/
def ErrorMap.get (m : ErrorMap) (k : Nat) : Option File :=
  (m.find? (fun kv => kv.fst == k)).map (fun kv => kv.snd)

/-- The main pager state (struct Pager in lib.rs): terminal, capabilities,
event stream, ordered file list, error-file mapping, optional progress
source and configuration. -/
structure Pager where
  term : SystemTerminal
  caps : Capabilities
  events : EventStream
  files : List File
  error_files : ErrorMap
  progress : Option Progress
  config : Config
deriving DecidableEq, Repr

/-- The environment a Pager construction runs in: platform, the result of
probing terminal capabilities from the environment, the outcomes of the
three SystemTerminal creation paths and of entering raw mode, and the
configuration read from the environment.  These are the external effects
lib.rs invokes; each is represented by its result. -/
structure TermEnv where
  isUnix : Bool
  probed : Except String Capabilities
  sysNew : Capabilities → Except String SystemTerminal
  sysNewFromStdio : Capabilities → Except String SystemTerminal
  sysNewWith : Capabilities → Except String SystemTerminal
  setRawMode : SystemTerminal → Except String SystemTerminal
  config : Config

/-- Determine terminal capabilities (fn termcaps in lib.rs): probe the
environment; on unix, fail when no terminfo database is found. -/
def termcaps (env : TermEnv) : Except String Capabilities :=
  match env.probed with
  | Except.error e => Except.error e
  | Except.ok caps =>
    if env.isUnix && caps.terminfo_db.isNone then
      Except.error "terminfo database not found (is $TERM correct?)"
    else
      Except.ok caps

/-- Pager::new_with_terminal_func — negotiate capabilities, create the
terminal, enter raw mode, then build the Pager with empty files, empty
error-file mapping, no progress source and the environment config. -/
def Pager.new_with_terminal_func (env : TermEnv)
    (create_term : Capabilities → Except String SystemTerminal) :
    Except String Pager :=
  match termcaps env with
  | Except.error e => Except.error e
  | Except.ok caps =>
    match create_term caps with
    | Except.error e => Except.error e
    | Except.ok term0 =>
      match env.setRawMode term0 with
      | Except.error e => Except.error e
      | Except.ok term =>
        Except.ok
          { term := term
            caps := caps
            events := EventStream.new term
            files := []
            error_files := []
            progress := none
            config := env.config }

/-- Pager::new_using_system_terminal. -/
def Pager.new_using_system_terminal (env : TermEnv) : Except String Pager :=
  Pager.new_with_terminal_func env env.sysNew

/-- Pager::new_using_stdio. -/
def Pager.new_using_stdio (env : TermEnv) : Except String Pager :=
  Pager.new_with_terminal_func env env.sysNewFromStdio

/-- Pager::new_with_input_output. -/
def Pager.new_with_input_output (env : TermEnv) : Except String Pager :=
  Pager.new_with_terminal_func env env.sysNewWith

/-- Pager::add_output_stream — add an output file to be paged: create a
streamed File at index files.len() and push it. -/
def Pager.add_output_stream (p : Pager) (stream : Nat) (title : String) :
    Except String Pager :=
  let index := p.files.length
  let event_sender := p.events.sender
  match File.new_streamed index stream title event_sender with
  | Except.error e => Except.error e
  | Except.ok file =>
    Except.ok { p with files := p.files ++ [file] }

/-- Pager::add_error_stream — attach an error stream: create a streamed
File at index files.len(); if the file list has a last element, insert the
new file into the error-file mapping keyed by the index of that last file;
push the new file. -/
def Pager.add_error_stream (p : Pager) (stream : Nat) (title : String) :
    Except String Pager :=
  let index := p.files.length
  let event_sender := p.events.sender
  match File.new_streamed index stream title event_sender with
  | Except.error e => Except.error e
  | Except.ok file =>
    let error_files :=
      match p.files.getLast? with
      | some out_file => ErrorMap.insert p.error_files out_file.index file
      | none => p.error_files
    Except.ok { p with files := p.files ++ [file], error_files := error_files }

/-- Pager::add_output_file — attach a file from disk. -/
def Pager.add_output_file (p : Pager) (filename : String) :
    Except String Pager :=
  let index := p.files.length
  let event_sender := p.events.sender
  match File.new_file index filename event_sender with
  | Except.error e => Except.error e
  | Except.ok file =>
    Except.ok { p with files := p.files ++ [file] }

/-- Pager::add_subprocess — attach the output and error streams from a
subprocess: create the linked pair at base index files.len(), insert the
error file into the error-file mapping keyed by that index, then push the
output file followed by the error file. -/
def Pager.add_subprocess (p : Pager) (command : String) (args : List String)
    (title : String) : Except String Pager :=
  let index := p.files.length
  let event_sender := p.events.sender
  match File.new_command index command args title event_sender with
  | Except.error e => Except.error e
  | Except.ok (out_file, err_file) =>
    Except.ok { p with
      error_files := ErrorMap.insert p.error_files index err_file
      files := p.files ++ [out_file, err_file] }

/-- Pager::set_progress_stream — set the progress stream, replacing any
previously installed one. -/
def Pager.set_progress_stream (p : Pager) (stream : Nat) : Pager :=
  let event_sender := p.events.sender
  { p with progress := some (Progress.new stream event_sender) }

/-- Pager::set_interface_mode. -/
def Pager.set_interface_mode (p : Pager) (value : InterfaceMode) : Pager :=
  { p with config := { p.config with interface_mode := value } }

/-- Pager::set_scroll_past_eof. -/
def Pager.set_scroll_past_eof (p : Pager) (value : Bool) : Pager :=
  { p with config := { p.config with scroll_past_eof := value } }

/-- Pager::set_read_ahead_lines. -/
def Pager.set_read_ahead_lines (p : Pager) (lines : Nat) : Pager :=
  { p with config := { p.config with read_ahead_lines := lines } }

/-- The argument bundle handed to the core main loop.  Modelled from the
spec: display.rs is not under src/; running the pager hands the terminal
handle, capability descriptor, event stream, file list, error-file
mapping, progress handle and configuration into the core main loop. -/
structure StartArgs where
  term : SystemTerminal
  caps : Capabilities
  events : EventStream
  files : List File
  error_files : ErrorMap
  progress : Option Progress
  config : Config
deriving DecidableEq, Repr

namespace display

/-- Modelled from the spec: display::start is the core entry point, not
under src/.  Its internals are out of scope; it is modelled as the capture
of the seven arguments lib.rs hands to it. -/
def start (term : SystemTerminal) (caps : Capabilities) (events : EventStream)
    (files : List File) (error_files : ErrorMap) (progress : Option Progress)
    (config : Config) : StartArgs :=
  { term := term, caps := caps, events := events, files := files,
    error_files := error_files, progress := progress, config := config }

end display

/-- Pager::run — consume the Pager and hand its fields to display::start. -/
def Pager.run (p : Pager) : StartArgs :=
  display.start p.term p.caps p.events p.files p.error_files p.progress p.config

/-- One builder call on a Pager, used to reason about arbitrary sequences
of builder calls. -/
inductive BuilderCall where
  | output_stream (stream : Nat) (title : String)
  | error_stream (stream : Nat) (title : String)
  | output_file (filename : String)
  | subprocess (command : String) (args : List String) (title : String)
  | progress_stream (stream : Nat)
  | interface_mode (value : InterfaceMode)
  | scroll_past_eof (value : Bool)
  | read_ahead_lines (lines : Nat)
deriving DecidableEq, Repr

/-- Apply one builder call to a Pager. -/
def Pager.applyCall (p : Pager) : BuilderCall → Except String Pager
  | BuilderCall.output_stream s t => p.add_output_stream s t
  | BuilderCall.error_stream s t => p.add_error_stream s t
  | BuilderCall.output_file f => p.add_output_file f
  | BuilderCall.subprocess c a t => p.add_subprocess c a t
  | BuilderCall.progress_stream s => Except.ok (p.set_progress_stream s)
  | BuilderCall.interface_mode v => Except.ok (p.set_interface_mode v)
  | BuilderCall.scroll_past_eof v => Except.ok (p.set_scroll_past_eof v)
  | BuilderCall.read_ahead_lines n => Except.ok (p.set_read_ahead_lines n)

/-- Apply a sequence of builder calls in order, stopping at the first
error. -/
def Pager.applyCalls (p : Pager) : List BuilderCall → Except String Pager
  | [] => Except.ok p
  | c :: rest =>
    match p.applyCall c with
    | Except.error e => Except.error e
    | Except.ok q => q.applyCalls rest

/-- A sample configuration, used for concrete evaluations. -/
def cfg0 : Config :=
  { interface_mode := InterfaceMode.fullScreen, scroll_past_eof := false,
    read_ahead_lines := 2 }

/-- A sample environment in which capability negotiation and terminal
creation succeed. -/
def envGood : TermEnv :=
  { isUnix := true
    probed := Except.ok { terminfo_db := some "xterm" }
    sysNew := fun _ => Except.ok 0
    sysNewFromStdio := fun _ => Except.ok 0
    sysNewWith := fun _ => Except.ok 0
    setRawMode := fun t => Except.ok t
    config := cfg0 }

/-- A sample unix environment in which probing succeeds but no terminfo
database is found. -/
def envNoTerminfo : TermEnv :=
  { envGood with probed := Except.ok { terminfo_db := none } }

/-- A sample freshly constructed pager: empty file list, empty error-file
mapping, no progress source. -/
def pager0 : Pager :=
  { term := 0, caps := { terminfo_db := some "xterm" },
    events := { waker := 0 }, files := [], error_files := [],
    progress := none, config := cfg0 }

/-- A sample output file at index 0. -/
def outFile0 : File :=
  { index := 0, title := "out", kind := FileKind.streamed 5, event_sender := 0 }

/-- A sample pager holding one output file. -/
def pagerOneOut : Pager := { pager0 with files := [outFile0] }

/-- A builder-call sequence with two consecutive error-stream calls after
one output-stream call. -/
def callsTwoErrs : List BuilderCall :=
  [BuilderCall.output_stream 10 "out", BuilderCall.error_stream 11 "err1",
   BuilderCall.error_stream 12 "err2"]

/-- The pager resulting from callsTwoErrs. -/
def pagerTwoErrs : Pager := (pager0.applyCalls callsTwoErrs).toOption.getD pager0

/-- The pager built by construction in envGood. -/
def pagerBuilt : Pager :=
  (Pager.new_with_terminal_func envGood envGood.sysNew).toOption.getD pager0

/-- A sample builder-call sequence mixing every kind of call. -/
def callsMixed : List BuilderCall :=
  [BuilderCall.output_stream 3 "a", BuilderCall.subprocess "cmd" ["x"] "t",
   BuilderCall.error_stream 4 "e", BuilderCall.scroll_past_eof true]

/-- The pager resulting from callsMixed applied to pagerBuilt. -/
def pagerMixed : Pager := (pagerBuilt.applyCalls callsMixed).toOption.getD pager0

/-- Looking up the key just inserted into the error-file mapping returns
the inserted file (VecMap::insert replaces any prior entry). -/
lemma ErrorMap.get_insert (m : ErrorMap) (k : Nat) (v : File) :
    ErrorMap.get (ErrorMap.insert m k v) k = some v := by
  simp [ErrorMap.get, ErrorMap.insert]

/-- C3: for every pager holding n files, add_subprocess appends exactly
two files — the subprocess output file at position n followed by its error
file at position n + 1 — and records the error file in the error-file
mapping keyed by n, the id of the output file. -/
theorem add_subprocess_appends_linked_pair (p : Pager) (command : String)
    (args : List String) (title : String) :
    ∃ q out err,
      p.add_subprocess command args title = Except.ok q ∧
      q.files = p.files ++ [out, err] ∧
      out.index = p.files.length ∧
      err.index = p.files.length + 1 ∧
      ErrorMap.get q.error_files p.files.length = some err :=
  ⟨_, _, _, rfl, rfl, rfl, rfl, ErrorMap.get_insert _ _ _⟩

/-- C6: running the pager hands the terminal handle, capability
descriptor, event stream, file list, error-file mapping, progress handle
and configuration — all unchanged — to the core entry point in a single
call. -/
theorem run_hands_fields_unchanged (p : Pager) :
    p.run = display.start p.term p.caps p.events p.files p.error_files
      p.progress p.config ∧
    (p.run).term = p.term ∧ (p.run).caps = p.caps ∧
    (p.run).events = p.events ∧ (p.run).files = p.files ∧
    (p.run).error_files = p.error_files ∧ (p.run).progress = p.progress ∧
    (p.run).config = p.config :=
  ⟨rfl, rfl, rfl, rfl, rfl, rfl, rfl, rfl⟩

/-- C7: each configuration setter updates exactly the named configuration
field and leaves the file list, the error-file mapping, the progress
handle and the other two configuration fields unchanged. -/
theorem config_setters_update_only_named_field (p : Pager)
    (m : InterfaceMode) (b : Bool) (n : Nat) :
    ((p.set_interface_mode m).config.interface_mode = m ∧
     (p.set_interface_mode m).config.scroll_past_eof = p.config.scroll_past_eof ∧
     (p.set_interface_mode m).config.read_ahead_lines = p.config.read_ahead_lines ∧
     (p.set_interface_mode m).files = p.files ∧
     (p.set_interface_mode m).error_files = p.error_files ∧
     (p.set_interface_mode m).progress = p.progress) ∧
    ((p.set_scroll_past_eof b).config.scroll_past_eof = b ∧
     (p.set_scroll_past_eof b).config.interface_mode = p.config.interface_mode ∧
     (p.set_scroll_past_eof b).config.read_ahead_lines = p.config.read_ahead_lines ∧
     (p.set_scroll_past_eof b).files = p.files ∧
     (p.set_scroll_past_eof b).error_files = p.error_files ∧
     (p.set_scroll_past_eof b).progress = p.progress) ∧
    ((p.set_read_ahead_lines n).config.read_ahead_lines = n ∧
     (p.set_read_ahead_lines n).config.interface_mode = p.config.interface_mode ∧
     (p.set_read_ahead_lines n).config.scroll_past_eof = p.config.scroll_past_eof ∧
     (p.set_read_ahead_lines n).files = p.files ∧
     (p.set_read_ahead_lines n).error_files = p.error_files ∧
     (p.set_read_ahead_lines n).progress = p.progress) :=
  ⟨⟨rfl, rfl, rfl, rfl, rfl, rfl⟩, ⟨rfl, rfl, rfl, rfl, rfl, rfl⟩,
   ⟨rfl, rfl, rfl, rfl, rfl, rfl⟩⟩

/-- C8: every successful add_error_stream call appends the new error file
to the end of the ordered file list with its own fresh id, equal to the
length of the file list before the call. -/
theorem add_error_stream_appends_fresh_file (p : Pager) (stream : Nat)
    (title : String) :
    ∃ q f, p.add_error_stream stream title = Except.ok q ∧
      q.files = p.files ++ [f] ∧ f.index = p.files.length :=
  ⟨_, _, rfl, rfl, rfl⟩

/-- C10: set_progress_stream installs the given stream as the single
progress source, and a later call replaces the stream installed by an
earlier call. -/
theorem set_progress_stream_replaces (p : Pager) (s1 s2 : Nat) :
    (p.set_progress_stream s1).progress
      = some (Progress.new s1 p.events.sender) ∧
    ((p.set_progress_stream s1).set_progress_stream s2).progress
      = some (Progress.new s2 p.events.sender) :=
  ⟨rfl, rfl⟩

/-- C1: when the most recently added file is an output file with index i,
a subsequent successful add_error_stream call records the newly created
error file in the error-file mapping keyed by i. -/
theorem add_error_stream_keys_last_output (p : Pager) (f : File) (i : Nat)
    (stream : Nat) (title : String)
    (hlast : p.files.getLast? = some f)
    (hout : f.kind.is_output = true)
    (hidx : f.index = i) :
    ∃ q err, p.add_error_stream stream title = Except.ok q ∧
      err = { index := p.files.length, title := title,
              kind := FileKind.streamed stream,
              event_sender := p.events.sender } ∧
      ErrorMap.get q.error_files i = some err := by
  subst hidx
  simp only [Pager.add_error_stream, File.new_streamed, hlast]
  exact ⟨_, _, rfl, rfl, ErrorMap.get_insert _ _ _⟩

/-- C1 witness: a concrete pager with one output file at index 0; the
attached error stream is recorded in the mapping under key 0. -/
theorem add_error_stream_keys_last_output_witness :
    ∃ q err, pagerOneOut.add_error_stream 7 "err" = Except.ok q ∧
      err = { index := pagerOneOut.files.length, title := "err",
              kind := FileKind.streamed 7,
              event_sender := pagerOneOut.events.sender } ∧
      ErrorMap.get q.error_files 0 = some err :=
  add_error_stream_keys_last_output pagerOneOut outFile0 0 7 "err"
    (by decide) (by decide) (by decide)

/-- C9: add_error_stream on a pager with an empty file list succeeds: the
error file is appended as file 0 and the error-file mapping is left
unchanged. -/
theorem add_error_stream_empty_ok (p : Pager) (stream : Nat)
    (title : String) (hempty : p.files = []) :
    p.add_error_stream stream title =
      Except.ok { p with
        files := [{ index := 0, title := title,
                    kind := FileKind.streamed stream,
                    event_sender := p.events.sender }] } := by
  simp [Pager.add_error_stream, File.new_streamed, hempty]

/-- C9 witness: the empty sample pager accepts an error stream as its
first file, with no entry added to the error-file mapping. -/
theorem add_error_stream_empty_ok_witness :
    pager0.add_error_stream 9 "solo" =
      Except.ok { pager0 with
        files := [{ index := 0, title := "solo",
                    kind := FileKind.streamed 9,
                    event_sender := pager0.events.sender }] } :=
  add_error_stream_empty_ok pager0 9 "solo" (by decide)

/-- C2 counterexample: after add_output_stream, add_error_stream,
add_error_stream, the only output source ever added is file 0, yet the
second error file (id 2) is recorded under key 1 — the id of the first
error file, itself the recorded error companion of file 0 — and key 0
still holds the first error file.  The claim that add_error_stream keys
the mapping by the most recently added output source, never by the id of
an error file, is therefore false. -/
theorem add_error_stream_not_keyed_by_last_output :
    pager0.applyCalls callsTwoErrs = Except.ok pagerTwoErrs ∧
    ErrorMap.get pagerTwoErrs.error_files 1 =
      some { index := 2, title := "err2", kind := FileKind.streamed 12,
             event_sender := 0 } ∧
    ErrorMap.get pagerTwoErrs.error_files 0 =
      some { index := 1, title := "err1", kind := FileKind.streamed 11,
             event_sender := 0 } ∧
    ErrorMap.get pagerTwoErrs.error_files 0 ≠
      some { index := 2, title := "err2", kind := FileKind.streamed 12,
             event_sender := 0 } :=
  ⟨rfl, by decide, by decide, by decide⟩

/-- C2 as amended: add_error_stream associates the new error file with
the id of the most recently added file of any kind; this is the id of the
most recently added output source exactly when the most recent addition
was an output source. -/
theorem add_error_stream_keys_most_recent_file (p : Pager) (f : File)
    (stream : Nat) (title : String)
    (hlast : p.files.getLast? = some f) :
    ∃ q err, p.add_error_stream stream title = Except.ok q ∧
      err = { index := p.files.length, title := title,
              kind := FileKind.streamed stream,
              event_sender := p.events.sender } ∧
      ErrorMap.get q.error_files f.index = some err := by
  simp only [Pager.add_error_stream, File.new_streamed, hlast]
  exact ⟨_, _, rfl, rfl, ErrorMap.get_insert _ _ _⟩

/-- C2 witness: on the sample pager with one output file, the error file
is keyed by the index of that most recently added file. -/
theorem add_error_stream_keys_most_recent_file_witness :
    ∃ q err, pagerOneOut.add_error_stream 8 "err2" = Except.ok q ∧
      err = { index := pagerOneOut.files.length, title := "err2",
              kind := FileKind.streamed 8,
              event_sender := pagerOneOut.events.sender } ∧
      ErrorMap.get q.error_files outFile0.index = some err :=
  add_error_stream_keys_most_recent_file pagerOneOut outFile0 8 "err2"
    (by decide)

/-- C4: if terminal capability negotiation fails — in particular on unix
when no terminfo database is found — every Pager constructor returns an
error, so no Pager value exists to run the core main loop on; when
negotiation succeeds and terminal creation and raw mode succeed,
construction proceeds to a Pager. -/
theorem constructors_require_termcaps (env : TermEnv) :
    ((∃ e, termcaps env = Except.error e) →
      (∃ e, Pager.new_using_system_terminal env = Except.error e) ∧
      (∃ e, Pager.new_using_stdio env = Except.error e) ∧
      (∃ e, Pager.new_with_input_output env = Except.error e)) ∧
    (∀ caps, env.isUnix = true → env.probed = Except.ok caps →
      caps.terminfo_db = none → ∃ e, termcaps env = Except.error e) ∧
    (∀ caps, termcaps env = Except.ok caps →
      ((∀ t0 t1, env.sysNew caps = Except.ok t0 →
          env.setRawMode t0 = Except.ok t1 →
          ∃ p, Pager.new_using_system_terminal env = Except.ok p) ∧
       (∀ t0 t1, env.sysNewFromStdio caps = Except.ok t0 →
          env.setRawMode t0 = Except.ok t1 →
          ∃ p, Pager.new_using_stdio env = Except.ok p) ∧
       (∀ t0 t1, env.sysNewWith caps = Except.ok t0 →
          env.setRawMode t0 = Except.ok t1 →
          ∃ p, Pager.new_with_input_output env = Except.ok p))) := by
  refine ⟨?_, ?_, ?_⟩
  · rintro ⟨e, he⟩
    exact ⟨⟨e, by simp [Pager.new_using_system_terminal,
        Pager.new_with_terminal_func, he]⟩,
      ⟨e, by simp [Pager.new_using_stdio, Pager.new_with_terminal_func, he]⟩,
      ⟨e, by simp [Pager.new_with_input_output,
        Pager.new_with_terminal_func, he]⟩⟩
  · intro caps hu hp hn
    exact ⟨"terminfo database not found (is $TERM correct?)",
      by simp [termcaps, hp, hu, hn]⟩
  · intro caps hc
    refine ⟨?_, ?_, ?_⟩ <;> intro t0 t1 h0 h1
    · exact ⟨Pager.mk t1 caps (EventStream.new t1) [] [] none env.config,
        by simp [Pager.new_using_system_terminal,
          Pager.new_with_terminal_func, hc, h0, h1]⟩
    · exact ⟨Pager.mk t1 caps (EventStream.new t1) [] [] none env.config,
        by simp [Pager.new_using_stdio,
          Pager.new_with_terminal_func, hc, h0, h1]⟩
    · exact ⟨Pager.mk t1 caps (EventStream.new t1) [] [] none env.config,
        by simp [Pager.new_with_input_output,
          Pager.new_with_terminal_func, hc, h0, h1]⟩

/-- C4 witness: in the unix environment without a terminfo database the
system-terminal constructor fails; in the good environment it succeeds. -/
theorem constructors_require_termcaps_witness :
    (∃ e, Pager.new_using_system_terminal envNoTerminfo = Except.error e) ∧
    (∃ p, Pager.new_using_system_terminal envGood = Except.ok p) :=
  ⟨((constructors_require_termcaps envNoTerminfo).1
      ((constructors_require_termcaps envNoTerminfo).2.1
        { terminfo_db := none } rfl rfl rfl)).1,
   ((constructors_require_termcaps envGood).2.2
      { terminfo_db := some "xterm" } rfl).1 0 0 rfl rfl⟩

/-- From the map-of-indices characterisation to the positional one: if the
indices of a file list read off as the range of its length, then the file
at every position k has index k. -/
lemma index_eq_position_of_map_range (fs : List File)
    (h : fs.map File.index = List.range fs.length) :
    ∀ k (hk : k < fs.length), (fs.get ⟨k, hk⟩).index = k := by
  intro k hk
  have h2 := congrArg (fun l => l[k]?) h
  simp only [List.getElem?_map] at h2
  rw [List.getElem?_eq_getElem hk] at h2
  rw [List.getElem?_range hk] at h2
  simpa [List.get_eq_getElem] using Option.some.inj h2

/-- Every builder call leaves the file list unchanged, appends one file
whose index is the previous length, or appends a linked pair whose indices
are the previous length and its successor. -/
lemma applyCall_files_shape (p : Pager) (c : BuilderCall) (q : Pager)
    (h : p.applyCall c = Except.ok q) :
    q.files = p.files ∨
    (∃ f, q.files = p.files ++ [f] ∧ f.index = p.files.length) ∨
    (∃ f g, q.files = p.files ++ [f, g] ∧ f.index = p.files.length ∧
      g.index = p.files.length + 1) := by
  cases c with
  | output_stream s t =>
    simp only [Pager.applyCall, Pager.add_output_stream, File.new_streamed,
      Except.ok.injEq] at h
    subst h
    exact Or.inr (Or.inl ⟨_, rfl, rfl⟩)
  | error_stream s t =>
    simp only [Pager.applyCall, Pager.add_error_stream, File.new_streamed,
      Except.ok.injEq] at h
    subst h
    exact Or.inr (Or.inl ⟨_, rfl, rfl⟩)
  | output_file fn =>
    simp only [Pager.applyCall, Pager.add_output_file, File.new_file,
      Except.ok.injEq] at h
    subst h
    exact Or.inr (Or.inl ⟨_, rfl, rfl⟩)
  | subprocess cmd args t =>
    simp only [Pager.applyCall, Pager.add_subprocess, File.new_command,
      Except.ok.injEq] at h
    subst h
    exact Or.inr (Or.inr ⟨_, _, rfl, rfl, rfl⟩)
  | progress_stream s =>
    simp only [Pager.applyCall, Except.ok.injEq] at h
    subst h
    exact Or.inl rfl
  | interface_mode v =>
    simp only [Pager.applyCall, Except.ok.injEq] at h
    subst h
    exact Or.inl rfl
  | scroll_past_eof v =>
    simp only [Pager.applyCall, Except.ok.injEq] at h
    subst h
    exact Or.inl rfl
  | read_ahead_lines n =>
    simp only [Pager.applyCall, Except.ok.injEq] at h
    subst h
    exact Or.inl rfl

/-- One builder call preserves the invariant that file indices read off as
the range of the length of the file list. -/
lemma applyCall_ids_range (p : Pager) (c : BuilderCall) (q : Pager)
    (h : p.applyCall c = Except.ok q)
    (hp : p.files.map File.index = List.range p.files.length) :
    q.files.map File.index = List.range q.files.length := by
  rcases applyCall_files_shape p c q h with h1 | ⟨f, h1, h2⟩ | ⟨f, g, h1, h2, h3⟩
  · rw [h1]; exact hp
  · rw [h1]; simp [hp, h2, List.range_succ]
  · rw [h1]; simp [hp, h2, h3, List.range_succ]

/-- A sequence of builder calls preserves the index-range invariant. -/
lemma applyCalls_ids_range (cs : List BuilderCall) :
    ∀ p q : Pager, p.applyCalls cs = Except.ok q →
      p.files.map File.index = List.range p.files.length →
      q.files.map File.index = List.range q.files.length := by
  induction cs with
  | nil =>
    intro p q h hp
    simp only [Pager.applyCalls, Except.ok.injEq] at h
    subst h
    exact hp
  | cons c rest ih =>
    intro p q h hp
    simp only [Pager.applyCalls] at h
    cases hc : p.applyCall c with
    | error e => rw [hc] at h; exact Except.noConfusion h
    | ok r =>
      rw [hc] at h
      exact ih r q h (applyCall_ids_range p c r hc hp)

/-- One builder call only ever extends the file list at the end. -/
lemma applyCall_files_extend (p : Pager) (c : BuilderCall) (q : Pager)
    (h : p.applyCall c = Except.ok q) :
    ∃ tail, q.files = p.files ++ tail := by
  rcases applyCall_files_shape p c q h with h1 | ⟨f, h1, _⟩ | ⟨f, g, h1, _, _⟩
  · exact ⟨[], by simp [h1]⟩
  · exact ⟨[f], h1⟩
  · exact ⟨[f, g], h1⟩

/-- A sequence of builder calls only ever extends the file list at the
end. -/
lemma applyCalls_files_extend (cs : List BuilderCall) :
    ∀ p q : Pager, p.applyCalls cs = Except.ok q →
      ∃ tail, q.files = p.files ++ tail := by
  induction cs with
  | nil =>
    intro p q h
    simp only [Pager.applyCalls, Except.ok.injEq] at h
    subst h
    exact ⟨[], by simp⟩
  | cons c rest ih =>
    intro p q h
    simp only [Pager.applyCalls] at h
    cases hc : p.applyCall c with
    | error e => rw [hc] at h; exact Except.noConfusion h
    | ok r =>
      rw [hc] at h
      obtain ⟨t1, ht1⟩ := applyCall_files_extend p c r hc
      obtain ⟨t2, ht2⟩ := ih r q h
      exact ⟨t1 ++ t2, by rw [ht2, ht1, List.append_assoc]⟩

/-- A freshly constructed pager has an empty file list. -/
lemma new_with_terminal_func_files_empty (env : TermEnv)
    (create_term : Capabilities → Except String SystemTerminal) (q : Pager)
    (hq : Pager.new_with_terminal_func env create_term = Except.ok q) :
    q.files = [] := by
  unfold Pager.new_with_terminal_func at hq
  split at hq
  · exact Except.noConfusion hq
  · split at hq
    · exact Except.noConfusion hq
    · split at hq
      · exact Except.noConfusion hq
      · cases hq
        rfl

/-- C5: after every sequence of successful builder calls on a freshly
constructed pager, the file at every position k of the ordered file list
has id k — so ids are assigned in strictly increasing order of addition
and addition order equals display order — and any further successful
builder calls only append to the file list, so an id once assigned never
changes. -/
theorem builder_ids_equal_positions (env : TermEnv)
    (create_term : Capabilities → Except String SystemTerminal) (q : Pager)
    (hq : Pager.new_with_terminal_func env create_term = Except.ok q)
    (cs : List BuilderCall) (p : Pager)
    (h : q.applyCalls cs = Except.ok p) :
    (∀ k (hk : k < p.files.length), (p.files.get ⟨k, hk⟩).index = k) ∧
    (∀ cs2 p2, p.applyCalls cs2 = Except.ok p2 →
      ∃ tail, p2.files = p.files ++ tail) := by
  have hq0 : q.files = [] := new_with_terminal_func_files_empty env create_term q hq
  constructor
  · refine index_eq_position_of_map_range p.files
      (applyCalls_ids_range cs q p h ?_) 
    rw [hq0]
    rfl
  · intro cs2 p2 h2
    exact applyCalls_files_extend cs2 p p2 h2

/-- C5 witness: after the mixed call sequence on the constructed sample
pager, the file at position 3 has id 3. -/
theorem builder_ids_equal_positions_witness :
    (pagerMixed.files.get ⟨3, by decide⟩).index = 3 :=
  (builder_ids_equal_positions envGood envGood.sysNew pagerBuilt rfl
    callsMixed pagerMixed rfl).1 3 (by decide)
